import Mathlib

/-!
Verification development for the sight-backend repository.

The repository is a small Flask HTTP API (src/app.py) that forwards uploaded
images to (a) an external image-forensics HTTP endpoint (src/image_detector.py)
and (b) an external face-extraction/recognition library (src/face_matcher.py).

Shallow embedding conventions used throughout this file:
  - The external library calls (DeepFace.extract_faces, DeepFace.find, the
    requests transport, file.save) are opaque collaborators; each is modelled
    as an explicit argument of the embedded function: a pure value for a
    normal return, and `Except String` (the `.error` case carrying `str(e)`)
    for a call that raises a Python exception.
  - Python floats are modelled as exact rationals (`Rat`), plus explicit
    infinity/NaN constructors where float("inf")/float("nan") can reach the
    code; base64/JPEG payloads are opaque and omitted from records, since no
    claim mentions their bytes.
  - Python dicts returned by the repository's own functions are modelled as
    structures whose `Option` fields model keys that are present only on some
    paths.
-/

/-- Model of a parsed Python float: CPython `float()` accepts finite decimals
as well as the special values inf/infinity and nan (any case, optional sign).
Finite values are modelled as exact rationals. -/
inductive PyFloat where
  | finite : Rat → PyFloat
  | infVal : Bool → PyFloat
  | nanVal : PyFloat
deriving DecidableEq

/-- ASCII whitespace stripped by CPython `float()` around its argument
(space, tab, newline, carriage return, vertical tab, form feed). -/
def isPyWs (c : Char) : Bool :=
  c = ' ' || c = '\t' || c = '\n' || c = '\r' || c = '\x0b' || c = '\x0c'

/-- Strip leading and trailing whitespace from a character list. -/
def stripWs (cs : List Char) : List Char :=
  ((cs.dropWhile isPyWs).reverse.dropWhile isPyWs).reverse

/-- CPython numeric-literal underscore rule: every underscore must sit
between two digits. `prev` is the character just before the current list. -/
def underscoresOk : Option Char → List Char → Bool
  | _, [] => true
  | prev, c :: rest =>
    if c = '_' then
      (match prev with
       | some p => p.isDigit
       | none => false)
      && (match rest with
          | n :: _ => n.isDigit
          | [] => false)
      && underscoresOk (some c) rest
    else underscoresOk (some c) rest

/-- Exponent part of a float literal: empty, or e/E followed by an optional
sign and at least one digit. -/
def expPartOk : List Char → Bool
  | [] => true
  | c :: tl =>
    if c = 'e' ∨ c = 'E' then
      let digitsPart :=
        match tl with
        | s :: tl2 => if s = '+' ∨ s = '-' then tl2 else tl
        | [] => tl
      !digitsPart.isEmpty && digitsPart.all Char.isDigit
    else false

/-- Mantissa-and-exponent grammar of a CPython float literal (sign and
underscores already removed): `[digits][.digits][exp]` with at least one
digit in the mantissa. -/
def mantissaExpOk (cs : List Char) : Bool :=
  let ip := cs.takeWhile Char.isDigit
  let rest := cs.dropWhile Char.isDigit
  match rest with
  | c :: tl =>
    if c = '.' then
      let fp := tl.takeWhile Char.isDigit
      let rest2 := tl.dropWhile Char.isDigit
      (!ip.isEmpty || !fp.isEmpty) && expPartOk rest2
    else !ip.isEmpty && expPartOk rest
  | [] => !ip.isEmpty

/-- Value of a digit string read in base 10. -/
def digitsToNat (cs : List Char) : Nat :=
  cs.foldl (fun a c => a * 10 + (c.toNat - 48)) 0

/-- Exact rational value of an unsigned float literal (underscores already
removed); CPython would round this to the nearest binary double, an
approximation irrelevant to the claims settled here. -/
def decimalValue (cs : List Char) : Rat :=
  let ip := cs.takeWhile Char.isDigit
  let rest := cs.dropWhile Char.isDigit
  let fp :=
    match rest with
    | c :: tl => if c = '.' then tl.takeWhile Char.isDigit else []
    | [] => []
  let rest2 :=
    match rest with
    | c :: tl => if c = '.' then tl.dropWhile Char.isDigit else rest
    | [] => []
  let expVal : Int :=
    match rest2 with
    | _ :: tl =>
      (match tl with
       | s :: tl2 =>
         if s = '-' then -(digitsToNat tl2 : Int)
         else if s = '+' then (digitsToNat tl2 : Int)
         else (digitsToNat tl : Int)
       | [] => 0)
    | [] => 0
  let mant : Rat := (digitsToNat ip : Rat) + (digitsToNat fp : Rat) / ((10 : Rat) ^ fp.length)
  if 0 ≤ expVal then mant * (10 : Rat) ^ expVal.toNat
  else mant / ((10 : Rat) ^ ((-expVal).toNat))

/-- Model of CPython `float(s)`: `none` models a raised ValueError,
`some` a successfully parsed value. Used by the /face/search and
/face/detect-and-search endpoints for the `threshold` form field. -/
def pyFloatParse (s : String) : Option PyFloat :=
  let cs := stripWs s.data
  let signed :=
    match cs with
    | c :: tl => if c = '-' then (true, tl) else if c = '+' then (false, tl) else (false, cs)
    | [] => (false, ([] : List Char))
  let neg := signed.fst
  let cs2 := signed.snd
  let lower := cs2.map Char.toLower
  if lower = "inf".data ∨ lower = "infinity".data then some (PyFloat.infVal (!neg))
  else if lower = "nan".data then some PyFloat.nanVal
  else if underscoresOk none cs2 && mantissaExpOk (cs2.filter (fun c => c ≠ '_')) then
    let v := decimalValue (cs2.filter (fun c => c ≠ '_'))
    some (PyFloat.finite (if neg then -v else v))
  else none

/-- Python `distance <= threshold` where distance is a finite float and the
threshold may be inf or nan: comparisons with nan are false, everything is
at most +inf, nothing is at most -inf. -/
def ratLePyFloat (d : Rat) : PyFloat → Bool
  | PyFloat.finite t => decide (d ≤ t)
  | PyFloat.infVal pos => pos
  | PyFloat.nanVal => false

namespace FaceMatcher

/-- One row of a DeepFace.find result dataframe: a gallery image path and the
distance between the probe face and that image. DeepFace returns rows sorted
by ascending distance, so the first row is the nearest candidate. -/
structure FindCandidate where
  identity : String
  distance : Rat
deriving DecidableEq

/-- The match_info dict built in FaceMatcher.search_faces for an accepted
match (src/face_matcher.py lines 151-155). -/
structure MatchInfo where
  identity : String
  distance : Rat
  person_name : String
deriving DecidableEq

/-- One per-face record appended to `results` in FaceMatcher.search_faces
(src/face_matcher.py lines 164-169 and 178-184). The base64 JPEG payload
`face_image_base64` is an opaque encoding of the crop and is omitted; the
`error` key exists only on the missing-database branch. -/
structure FaceMatchRecord where
  face_number : Nat
  match_found : Bool
  match_info : Option MatchInfo
  error : Option String
deriving DecidableEq

/-- The dict returned by FaceMatcher.search_faces; `error` models the key
that is present only in the exception branch. -/
structure SearchResult where
  success : Bool
  error : Option String
  faces_detected : Nat
  matches_ : List FaceMatchRecord
deriving DecidableEq

/-- One record of FaceMatcher.detect_faces (src/face_matcher.py lines 62-66);
the base64 payload and shape tuple are opaque encodings of the crop and are
omitted. -/
structure DetectedFace where
  face_number : Nat
deriving DecidableEq

/-- The dict returned by FaceMatcher.detect_faces. -/
structure DetectResult where
  success : Bool
  error : Option String
  faces_detected : Nat
  faces : List DetectedFace
deriving DecidableEq

/-- `self.default_database_path` of FaceMatcher as constructed in app.py
(FaceMatcher() with the default argument). -/
def default_database_path : String := "database/"

/-- `os.path.basename(identity).split('.')[0]` (src/face_matcher.py line 154):
the part after the last slash, truncated at the first dot. -/
def person_name_of (identity : String) : String :=
  (((identity.splitOn "/").getLastD "").splitOn ".").headD ""

/-- Body of one iteration of the per-face loop of FaceMatcher.search_faces
(src/face_matcher.py lines 117-190). `findRes` is the outcome of the
DeepFace.find call for this face (`.error` = the library raised; the Except
also absorbs any exception of the temp-file write for this face); it is
consulted only when the database directory exists. The code takes the first
row of the first dataframe as the nearest candidate and accepts it iff its
distance is at most the threshold; when the database path is missing it
appends a record with `match_found = False` and an explicit error string. -/
def processFace (dbExists : Bool) (database_path : String) (threshold : PyFloat)
    (idx : Nat) (findRes : Except String (List (List FindCandidate))) :
    Except String FaceMatchRecord :=
  if dbExists then
    match findRes with
    | Except.error e => Except.error e
    | Except.ok result =>
      let best? : Option FindCandidate :=
        match result with
        | [] => none
        | df :: _ =>
          match df with
          | [] => none
          | b :: _ => some b
      match best? with
      | some best =>
        if ratLePyFloat best.distance threshold then
          Except.ok { face_number := idx + 1, match_found := true,
                      match_info := some { identity := best.identity,
                                           distance := best.distance,
                                           person_name := person_name_of best.identity },
                      error := none }
        else
          Except.ok { face_number := idx + 1, match_found := false,
                      match_info := none, error := none }
      | none =>
        Except.ok { face_number := idx + 1, match_found := false,
                    match_info := none, error := none }
  else
    Except.ok { face_number := idx + 1, match_found := false, match_info := none,
                error := some ("Database path \"" ++ database_path ++ "\" does not exist") }

/-- The `for idx, face in enumerate(faces)` loop of search_faces, processing
faces at indices `start, start+1, ...` (`count` of them). An exception in any
iteration aborts the loop and discards the records accumulated so far, exactly
as a raised exception does in the Python loop. -/
def searchLoop (find : Nat → Except String (List (List FindCandidate)))
    (dbExists : Bool) (database_path : String) (threshold : PyFloat) :
    Nat → Nat → Except String (List FaceMatchRecord)
  | _, 0 => Except.ok []
  | start, Nat.succ k => do
    let r ← processFace dbExists database_path threshold start (find start)
    let rest ← searchLoop find dbExists database_path threshold (start + 1) k
    Except.ok (r :: rest)

/-- FaceMatcher.search_faces (src/face_matcher.py lines 81-203).
`extract` models the DeepFace.extract_faces call: the number of faces found,
or the message of a raised exception (the face crops themselves are opaque;
per-face behaviour is driven by `find`). `find i` models the DeepFace.find
call for face number i+1. `dbExists` models
`os.path.exists(database_path) and os.path.isdir(database_path)`.
A `none` database_path models passing database_path=None, defaulted to
self.default_database_path. The outermost try/except converts any raised
exception into the success=False dict. -/
def search_faces (extract : Except String Nat)
    (find : Nat → Except String (List (List FindCandidate)))
    (dbExists : Bool) (database_path : Option String) (threshold : PyFloat) :
    SearchResult :=
  let db_path := database_path.getD default_database_path
  match extract with
  | Except.error e =>
    { success := false, error := some e, faces_detected := 0, matches_ := [] }
  | Except.ok n =>
    if n = 0 then
      { success := true, error := none, faces_detected := 0, matches_ := [] }
    else
      match searchLoop find dbExists db_path threshold 0 n with
      | Except.error e =>
        { success := false, error := some e, faces_detected := 0, matches_ := [] }
      | Except.ok results =>
        { success := true, error := none, faces_detected := results.length,
          matches_ := results }

/-- FaceMatcher.detect_faces (src/face_matcher.py lines 20-79). `extract`
models the DeepFace.extract_faces call as in search_faces; the loop numbers
the detected faces 1..n, and the try/except converts a raised exception
into the success=False dict. -/
def detect_faces (extract : Except String Nat) : DetectResult :=
  match extract with
  | Except.error e =>
    { success := false, error := some e, faces_detected := 0, faces := [] }
  | Except.ok n =>
    let detected := (List.range n).map (fun idx => { face_number := idx + 1 : DetectedFace })
    { success := true, error := none, faces_detected := detected.length, faces := detected }

/-- FaceMatcher.detect_and_search (src/face_matcher.py lines 205-217): it
forwards all of its arguments to search_faces and returns its result. -/
def detect_and_search (extract : Except String Nat)
    (find : Nat → Except String (List (List FindCandidate)))
    (dbExists : Bool) (database_path : Option String) (threshold : PyFloat) :
    SearchResult :=
  search_faces extract find dbExists database_path threshold

end FaceMatcher

namespace ImageDetector

/-- The exception classes `requests.exceptions.RequestException` covers for a
transport failure: timeout, connection error, or the HTTPError raised by
response.raise_for_status() on a non-2xx/3xx status. The string is `str(e)`. -/
inductive RequestException where
  | timeout : String → RequestException
  | connectionError : String → RequestException
  | httpError : String → RequestException
deriving DecidableEq

/-- Python `str(e)` of a RequestException: the failure description it carries. -/
def excStr : RequestException → String
  | RequestException.timeout m => m
  | RequestException.connectionError m => m
  | RequestException.httpError m => m

/-- A requests.Response whose JSON body has already been parsed (a JSON
decode failure would not be a RequestException and is outside the transport
failure class the claims are about). -/
structure HttpResponse (α : Type) where
  status_code : Nat
  body : α
deriving DecidableEq

/-- The value ImageDetector._make_request produces: the parsed JSON body on
success, or the error dict {'status': ..., 'error': ..., 'model': ...} built
in the except branch (src/image_detector.py lines 117-121). -/
inductive MakeRequestResult (α : Type) where
  | json : α → MakeRequestResult α
  | errDict : String → String → String → MakeRequestResult α
deriving DecidableEq

/-- response.raise_for_status(): raises HTTPError exactly for status codes in
[400, 600); its message is modelled as a fixed rendering of the code. -/
def raise_for_status (α : Type) (r : HttpResponse α) :
    Except RequestException (HttpResponse α) :=
  if 400 ≤ r.status_code ∧ r.status_code < 600 then
    Except.error (RequestException.httpError ("HTTP error " ++ toString r.status_code))
  else Except.ok r

/-- The try-block of _make_request after the GET/POST has been issued:
propagate a transport exception through raise_for_status and take the parsed
body, then the `except requests.exceptions.RequestException` clause turns any
such exception into the error dict tagged with the model name
(src/image_detector.py lines 93-121). -/
def requestCore (α : Type) (transport : Except RequestException (HttpResponse α))
    (model : String) : MakeRequestResult α :=
  match transport.bind (fun response =>
      (raise_for_status α response).map (fun r2 => r2.body)) with
  | Except.ok body => MakeRequestResult.json body
  | Except.error e => MakeRequestResult.errDict "error" (excStr e) model

/-- ImageDetector._make_request (src/image_detector.py lines 82-121).
`is_url` models `self._is_url(image_source)`; for a file path the code first
opens the file, and an OSError there (modelled by `openFile = .error`) is NOT
a RequestException: it propagates to the caller, hence the outer Except. The
transport argument models the requests.get/requests.post call together with
the response it yields. -/
def make_request (α : Type) (is_url : Bool) (openFile : Except String Unit)
    (transport : Except RequestException (HttpResponse α)) (model : String) :
    Except String (MakeRequestResult α) :=
  if is_url then Except.ok (requestCore α transport model)
  else
    match openFile with
    | Except.error e => Except.error e
    | Except.ok _ => Except.ok (requestCore α transport model)

/-- Inner dict under results['deepfake']['type']; the key 'deepfake' may be
absent. Present values are the numeric probabilities the code reads (a
present key of a non-numeric shape would make the Python formatting raise,
which is outside the missing-key behaviour the claim quantifies over). -/
structure DeepfakeType where
  deepfake : Option Rat
deriving DecidableEq

/-- results['deepfake']: the 'type' key may be absent. -/
structure DeepfakeData where
  type_ : Option DeepfakeType
deriving DecidableEq

/-- Inner dict under results['ai_generated']['type']. -/
structure AiType where
  ai_generated : Option Rat
deriving DecidableEq

/-- results['ai_generated']: the 'type' key may be absent. -/
structure AiData where
  type_ : Option AiType
deriving DecidableEq

/-- Inner dict under results['quality']['quality']. -/
structure QualityInner where
  score : Option Rat
deriving DecidableEq

/-- results['quality']: the 'quality' key may be absent. -/
structure QualityData where
  quality : Option QualityInner
deriving DecidableEq

/-- Inner dict under results['scammer']['scam']. -/
structure ScamInner where
  prob : Option Rat
deriving DecidableEq

/-- results['scammer']: the 'scam' key may be absent. -/
structure ScamData where
  scam : Option ScamInner
deriving DecidableEq

/-- The aggregated results dict consumed by ImageDetector.generate_report.
Every key the function reads is optional (`none` models an absent key);
this is the domain of dictionaries whose present entries have the nested
shapes the code dereferences. -/
structure AnalysisResults where
  image_source : Option String
  deepfake : Option DeepfakeData
  ai_generated : Option AiData
  quality : Option QualityData
  scammer : Option ScamData
deriving DecidableEq

/-- The "=" * 60 separator line of the report. -/
def eq60 : String := String.mk (List.replicate 60 '=')

/-- Two-digit zero-padded rendering of a value below 100. -/
def pad2 (n : Nat) : String :=
  if n < 10 then "0" ++ toString n else toString n

/-- Two-decimal rendering of a rational, modelling Python's "%.2f"-style
f-string formatting (rounding half up; CPython rounds the underlying binary
double half to even, a difference immaterial to every claim here). -/
def fmt2 (q : Rat) : String :=
  let scaled : Int := Int.floor (q * 100 + 1 / 2)
  let sign := if scaled < 0 then "-" else ""
  sign ++ toString (scaled.natAbs / 100) ++ "." ++ pad2 (scaled.natAbs % 100)

/-- Deepfake section of generate_report (src/image_detector.py lines 174-180):
emitted only when results['deepfake']['type']['deepfake'] is reachable, with a
warning line when the probability exceeds 0.5. -/
def deepfakeLines : Option DeepfakeData → List String
  | none => []
  | some d =>
    match d.type_ with
    | none => []
    | some t =>
      match t.deepfake with
      | none => []
      | some prob =>
        ["Deepfake Probability: " ++ fmt2 (prob * 100) ++ "%"]
          ++ (if (1 : Rat) / 2 < prob then
                ["⚠️  WARNING: High deepfake probability detected!"] else [])

/-- AI-generated section of generate_report (src/image_detector.py
lines 183-189). -/
def aiGeneratedLines : Option AiData → List String
  | none => []
  | some d =>
    match d.type_ with
    | none => []
    | some t =>
      match t.ai_generated with
      | none => []
      | some prob =>
        ["AI-Generated Probability: " ++ fmt2 (prob * 100) ++ "%"]
          ++ (if (1 : Rat) / 2 < prob then
                ["⚠️  WARNING: AI-generated content detected!"] else [])

/-- Quality section of generate_report (src/image_detector.py lines 192-196);
no warning line. -/
def qualityLines : Option QualityData → List String
  | none => []
  | some d =>
    match d.quality with
    | none => []
    | some inner =>
      match inner.score with
      | none => []
      | some score => ["Image Quality Score: " ++ fmt2 (score * 100) ++ "%"]

/-- Scammer section of generate_report (src/image_detector.py lines 199-205). -/
def scammerLines : Option ScamData → List String
  | none => []
  | some d =>
    match d.scam with
    | none => []
    | some inner =>
      match inner.prob with
      | none => []
      | some prob =>
        ["Scammer Detection Probability: " ++ fmt2 (prob * 100) ++ "%"]
          ++ (if (1 : Rat) / 2 < prob then
                ["⚠️  WARNING: Scammer indicators detected!"] else [])

/-- ImageDetector.generate_report (src/image_detector.py lines 157-208).
Every section key is looked up with an `in` guard before being dereferenced,
so an absent key skips its section — EXCEPT the top-level 'image_source' key,
which line 171 indexes unconditionally: its absence raises KeyError, modelled
by the Except.error result. -/
def generate_report (results : AnalysisResults) : Except String String :=
  match results.image_source with
  | none => Except.error "KeyError: image_source"
  | some src =>
    let report : List String :=
      ["\n" ++ eq60, "IMAGE DETECTION REPORT", eq60,
       "\nImage Source: " ++ src ++ "\n"]
        ++ deepfakeLines results.deepfake
        ++ aiGeneratedLines results.ai_generated
        ++ qualityLines results.quality
        ++ scammerLines results.scammer
        ++ ["\n" ++ eq60]
    Except.ok (String.intercalate "\n" report)

end ImageDetector

namespace App

/-- An uploaded multipart file as seen by Flask: `request.files['image']`
exposes a filename and a content type. The handlers in app.py read only the
filename; the content type is carried so that its (non-)influence can be
stated. -/
structure UploadedFile where
  filename : String
  content_type : String
deriving DecidableEq

/-- The parts of a Flask request the four handlers read: the optional
'image' entry of request.files, and request.form. -/
structure HttpRequest where
  image : Option UploadedFile
  form : List (String × String)
deriving DecidableEq

/-- request.form.get(key, default). -/
def formGet (req : HttpRequest) (key dflt : String) : String :=
  match req.form.lookup key with
  | some v => v
  | none => dflt

/-- Observable side effects of one request: creation and deletion of the
request's temporary upload file, and the call into the external
detection/search code. -/
inductive Ev where
  | tmpCreate
  | tmpDelete
  | extCall
deriving DecidableEq

/-- A handler's JSON body: either jsonify({'error': msg}) or jsonify(result)
for a result value of the underlying call. -/
inductive Body (α : Type) where
  | errJson : String → Body α
  | result : α → Body α
deriving DecidableEq

/-- A handler's outcome: HTTP status, JSON body, and the ordered trace of
side effects performed before the response was produced. -/
structure EndpointResult (α : Type) where
  status : Nat
  body : Body α
  trace : List Ev
deriving DecidableEq

/-- TAMPERING_DETECTION_AVAILABLE (src/app.py lines 24-29) is always False:
app.py does `from image_detector import detect_tampering`, but
src/image_detector.py defines no function named detect_tampering (only the
ImageDetector class and main), so the import raises ImportError and the
except branch sets the flag to False. -/
def TAMPERING_DETECTION_AVAILABLE : Bool := false

/-- The /detect handler detect_tampering_endpoint (src/app.py lines 42-72),
parameterised by the availability flag. `save_ok` models whether
file.save(tmp_file.name) succeeds; a failure there raises after the temporary
file has been created (delete=False) but before the try/finally that deletes
it, so the handler answers 500 via the outer except and the file survives.
`detect_result` models the detect_tampering(tmp_path) call (`.error` = it
raised). The unlink in the finally block is wrapped in its own
try/except-pass; it is modelled as succeeding. -/
def detect_tampering_endpoint (α : Type) (available : Bool) (req : HttpRequest)
    (save_ok : Bool) (saveErr : String) (detect_result : Except String α) :
    EndpointResult α :=
  if available = false then
    ⟨503, Body.errJson "Tampering detection not available", []⟩
  else
    match req.image with
    | none => ⟨400, Body.errJson "No image file provided", []⟩
    | some file =>
      if file.filename = "" then ⟨400, Body.errJson "No file selected", []⟩
      else if save_ok = false then ⟨500, Body.errJson saveErr, [Ev.tmpCreate]⟩
      else
        match detect_result with
        | Except.ok v => ⟨200, Body.result v, [Ev.tmpCreate, Ev.extCall, Ev.tmpDelete]⟩
        | Except.error e => ⟨500, Body.errJson e, [Ev.tmpCreate, Ev.extCall, Ev.tmpDelete]⟩

/-- The /face/detect handler detect_faces (src/app.py lines 75-108).
`available` models FACE_MATCHING_AVAILABLE (environment-dependent: whether
the deepface import succeeded). The face_matcher.detect_faces call itself
never raises (it catches every exception internally), so after a successful
save the handler always answers 200 with its result. The 'detector' form
field is read and forwarded to the library; its influence is absorbed by the
`extract` oracle. -/
def detect_faces (available : Bool) (req : HttpRequest) (save_ok : Bool)
    (saveErr : String) (extract : Except String Nat) :
    EndpointResult FaceMatcher.DetectResult :=
  if available = false then
    ⟨503, Body.errJson "Face detection not available", []⟩
  else
    match req.image with
    | none => ⟨400, Body.errJson "No image file provided", []⟩
    | some file =>
      if file.filename = "" then ⟨400, Body.errJson "No file selected", []⟩
      else if save_ok = false then ⟨500, Body.errJson saveErr, [Ev.tmpCreate]⟩
      else
        ⟨200, Body.result (FaceMatcher.detect_faces extract),
         [Ev.tmpCreate, Ev.extCall, Ev.tmpDelete]⟩

/-- The /face/search handler search_faces (src/app.py lines 111-153). The
form fields are read BEFORE the temporary file is created; threshold is
parsed with float(), whose ValueError is caught only by the handler's outer
`except Exception` clause, yielding a 500 {'error': str(e)} response with no
temp file created and no library call. (Python's str(ValueError) quotes the
offending string; the quotes are elided here.) After a successful save the
face_matcher.search_faces call never raises, so the handler answers 200 with
its result. -/
def search_faces (available : Bool) (req : HttpRequest) (save_ok : Bool)
    (saveErr : String) (extract : Except String Nat)
    (find : Nat → Except String (List (List FaceMatcher.FindCandidate)))
    (dbExists : Bool) : EndpointResult FaceMatcher.SearchResult :=
  if available = false then
    ⟨503, Body.errJson "Face matching not available", []⟩
  else
    match req.image with
    | none => ⟨400, Body.errJson "No image file provided", []⟩
    | some file =>
      if file.filename = "" then ⟨400, Body.errJson "No file selected", []⟩
      else
        let thresholdStr := formGet req "threshold" "0.5"
        match pyFloatParse thresholdStr with
        | none =>
          ⟨500, Body.errJson ("could not convert string to float: " ++ thresholdStr), []⟩
        | some threshold =>
          let database_path := formGet req "database_path" "database/"
          if save_ok = false then ⟨500, Body.errJson saveErr, [Ev.tmpCreate]⟩
          else
            ⟨200, Body.result (FaceMatcher.search_faces extract find dbExists
                    (some database_path) threshold),
             [Ev.tmpCreate, Ev.extCall, Ev.tmpDelete]⟩

/-- The /face/detect-and-search handler detect_and_search_faces (src/app.py
lines 156-198): same shape as the /face/search handler but invoking
face_matcher.detect_and_search. -/
def detect_and_search_faces (available : Bool) (req : HttpRequest) (save_ok : Bool)
    (saveErr : String) (extract : Except String Nat)
    (find : Nat → Except String (List (List FaceMatcher.FindCandidate)))
    (dbExists : Bool) : EndpointResult FaceMatcher.SearchResult :=
  if available = false then
    ⟨503, Body.errJson "Face matching not available", []⟩
  else
    match req.image with
    | none => ⟨400, Body.errJson "No image file provided", []⟩
    | some file =>
      if file.filename = "" then ⟨400, Body.errJson "No file selected", []⟩
      else
        let thresholdStr := formGet req "threshold" "0.5"
        match pyFloatParse thresholdStr with
        | none =>
          ⟨500, Body.errJson ("could not convert string to float: " ++ thresholdStr), []⟩
        | some threshold =>
          let database_path := formGet req "database_path" "database/"
          if save_ok = false then ⟨500, Body.errJson saveErr, [Ev.tmpCreate]⟩
          else
            ⟨200, Body.result (FaceMatcher.detect_and_search extract find dbExists
                    (some database_path) threshold),
             [Ev.tmpCreate, Ev.extCall, Ev.tmpDelete]⟩

end App

section ProofInfrastructure

lemma exceptBindOk {ε α β : Type} (a : α) (f : α → Except ε β) :
    (Except.ok a >>= f) = f a := rfl

lemma exceptBindError {ε α β : Type} (e : ε) (f : α → Except ε β) :
    ((Except.error e : Except ε α) >>= f) = Except.error e := rfl

namespace FaceMatcher

/-- Proof helper: the record list a run of the per-face loop is expected to
produce when iteration `idx` yields the record `recOf idx`. -/
def loopExpected (recOf : Nat → FaceMatchRecord) : Nat → Nat → List FaceMatchRecord
  | _, 0 => []
  | start, Nat.succ k => recOf start :: loopExpected recOf (start + 1) k

lemma loopExpected_length (recOf : Nat → FaceMatchRecord) :
    ∀ (k start : Nat), (loopExpected recOf start k).length = k := by
  intro k
  induction k with
  | zero => intro start; rfl
  | succ k ih => intro start; simp only [loopExpected, List.length_cons, ih]

lemma loopExpected_get (recOf : Nat → FaceMatchRecord) :
    ∀ (k start i : Nat) (h : i < (loopExpected recOf start k).length),
      (loopExpected recOf start k).get ⟨i, h⟩ = recOf (start + i) := by
  intro k
  induction k with
  | zero => intro start i h; simp [loopExpected] at h
  | succ k ih =>
    intro start i h
    cases i with
    | zero => simp [loopExpected]
    | succ i =>
      have hlt : i < (loopExpected recOf (start + 1) k).length := by
        simpa [loopExpected] using Nat.lt_of_succ_lt_succ (by simpa [loopExpected] using h)
      have := ih (start + 1) i hlt
      simpa [loopExpected, Nat.add_assoc, Nat.add_comm 1 i] using this

lemma loopExpected_mem (recOf : Nat → FaceMatchRecord) :
    ∀ (k start : Nat) (rec : FaceMatchRecord),
      rec ∈ loopExpected recOf start k → ∃ idx, rec = recOf idx := by
  intro k
  induction k with
  | zero => intro start rec h; simp [loopExpected] at h
  | succ k ih =>
    intro start rec h
    simp only [loopExpected, List.mem_cons] at h
    rcases h with h | h
    · exact ⟨start, h⟩
    · exact ih (start + 1) rec h

lemma searchLoop_allOk (find : Nat → Except String (List (List FindCandidate)))
    (db : Bool) (p : String) (t : PyFloat) (recOf : Nat → FaceMatchRecord)
    (h : ∀ i, processFace db p t i (find i) = Except.ok (recOf i)) :
    ∀ (k start : Nat),
      searchLoop find db p t start k = Except.ok (loopExpected recOf start k) := by
  intro k
  induction k with
  | zero => intro start; rfl
  | succ k ih =>
    intro start
    show (processFace db p t start (find start) >>= fun r =>
        searchLoop find db p t (start + 1) k >>= fun rest => Except.ok (r :: rest))
      = _
    rw [h start, exceptBindOk, ih (start + 1), exceptBindOk]
    rfl

lemma searchLoop_err (find : Nat → Except String (List (List FindCandidate)))
    (p : String) (t : PyFloat) (e : String) :
    ∀ (m k start : Nat),
      (∀ j, j < m → ∃ rec, processFace true p t (start + j) (find (start + j)) = Except.ok rec) →
      processFace true p t (start + m) (find (start + m)) = Except.error e →
      searchLoop find true p t start (Nat.succ (m + k)) = Except.error e := by
  intro m
  induction m with
  | zero =>
    intro k start _ herr
    show (processFace true p t start (find start) >>= fun r =>
        searchLoop find true p t (start + 1) (0 + k) >>= fun rest => Except.ok (r :: rest))
      = _
    simp only [Nat.add_zero] at herr
    rw [herr, exceptBindError]
  | succ m ih =>
    intro k start hok herr
    obtain ⟨rec0, h0⟩ := hok 0 (Nat.succ_pos m)
    show (processFace true p t start (find start) >>= fun r =>
        searchLoop find true p t (start + 1) (m + 1 + k) >>= fun rest => Except.ok (r :: rest))
      = _
    simp only [Nat.add_zero] at h0
    rw [h0, exceptBindOk]
    have hok2 : ∀ j, j < m →
        ∃ rec, processFace true p t (start + 1 + j) (find (start + 1 + j)) = Except.ok rec := by
      intro j hj
      have := hok (j + 1) (Nat.succ_lt_succ hj)
      rwa [show start + (j + 1) = start + 1 + j by omega] at this
    have herr2 : processFace true p t (start + 1 + m) (find (start + 1 + m))
        = Except.error e := by
      rwa [show start + (m + 1) = start + 1 + m by omega] at herr
    have := ih k (start + 1) hok2 herr2
    rw [show m + 1 + k = Nat.succ (m + k) by omega, this, exceptBindError]

end FaceMatcher

end ProofInfrastructure

/-- C5: FaceMatcher.detect_and_search forwards its arguments (extraction
outcome, per-face find outcomes, database existence, database path,
threshold) unchanged to FaceMatcher.search_faces and returns its result:
on identical arguments the two produce identical output — a pure alias with
no distinct behaviour. -/
theorem C5_detect_and_search_is_alias :
    ∀ (extract : Except String Nat)
      (find : Nat → Except String (List (List FaceMatcher.FindCandidate)))
      (dbExists : Bool) (database_path : Option String) (threshold : PyFloat),
      FaceMatcher.detect_and_search extract find dbExists database_path threshold
        = FaceMatcher.search_faces extract find dbExists database_path threshold :=
  fun _ _ _ _ _ => rfl

/-- C3 (amended): generate_report tolerates every absent key EXCEPT the
top-level 'image_source' key, which it indexes unconditionally: over the
well-shaped input domain the call succeeds if and only if 'image_source' is
present; when it is absent the call fails (KeyError) instead of skipping. -/
theorem C3_report_succeeds_iff_image_source_present :
    ∀ (r : ImageDetector.AnalysisResults),
      (∃ s, ImageDetector.generate_report r = Except.ok s)
        ↔ r.image_source.isSome = true := by
  intro r
  cases h : r.image_source with
  | none => simp [ImageDetector.generate_report, h]
  | some src => simp [ImageDetector.generate_report, h]

/-- C3 (counterexample to the claim as stated): the empty aggregated results
dictionary — in particular one whose top-level 'image_source' key is absent —
makes generate_report fail with a KeyError rather than being silently
skipped, so the function is not total on dictionaries with absent keys. -/
theorem C3_counterexample :
    ImageDetector.generate_report ⟨none, none, none, none, none⟩
      = Except.error "KeyError: image_source" := rfl

namespace FaceMatcher

lemma processFace_okOfOk (p : String) (t : PyFloat) (idx : Nat)
    (l : List (List FindCandidate)) :
    ∃ rec, processFace true p t idx (Except.ok l) = Except.ok rec := by
  cases l with
  | nil => exact ⟨_, rfl⟩
  | cons df dfs =>
    cases df with
    | nil => exact ⟨_, rfl⟩
    | cons b rest =>
      cases hb : ratLePyFloat b.distance t
      · refine ⟨{ face_number := idx + 1, match_found := false, match_info := none,
                  error := none }, ?_⟩
        simp [processFace, hb]
      · refine ⟨{ face_number := idx + 1, match_found := true,
                  match_info := some { identity := b.identity, distance := b.distance,
                                       person_name := person_name_of b.identity },
                  error := none }, ?_⟩
        simp [processFace, hb]

end FaceMatcher

/-- C7: when the database directory passed to search_faces does not exist
(or is not a directory), the call still succeeds (success = true), one record
is returned per detected face, and every record carries match_found = false,
no match_info, and the explicit error string naming the missing database
path, instead of the whole request failing. -/
theorem C7_missing_database_reports_per_face_error :
    ∀ (n : Nat) (find : Nat → Except String (List (List FaceMatcher.FindCandidate)))
      (p : String) (t : PyFloat),
      (FaceMatcher.search_faces (Except.ok n) find false (some p) t).success = true ∧
      (FaceMatcher.search_faces (Except.ok n) find false (some p) t).faces_detected = n ∧
      (FaceMatcher.search_faces (Except.ok n) find false (some p) t).matches_.length = n ∧
      ∀ rec ∈ (FaceMatcher.search_faces (Except.ok n) find false (some p) t).matches_,
        rec.match_found = false ∧ rec.match_info = none ∧
        rec.error = some ("Database path \"" ++ p ++ "\" does not exist") := by
  intro n find p t
  cases n with
  | zero =>
    refine ⟨rfl, rfl, rfl, ?_⟩
    intro rec h
    simp [FaceMatcher.search_faces] at h
  | succ m =>
    have hloop := FaceMatcher.searchLoop_allOk find false p t
        (fun idx => { face_number := idx + 1, match_found := false, match_info := none,
                      error := some ("Database path \"" ++ p ++ "\" does not exist") })
        (fun i => rfl) (Nat.succ m) 0
    have hres : FaceMatcher.search_faces (Except.ok (Nat.succ m)) find false (some p) t
        = { success := true, error := none,
            faces_detected := (FaceMatcher.loopExpected
              (fun idx => { face_number := idx + 1, match_found := false, match_info := none,
                            error := some ("Database path \"" ++ p ++ "\" does not exist") })
              0 (Nat.succ m)).length,
            matches_ := FaceMatcher.loopExpected
              (fun idx => { face_number := idx + 1, match_found := false, match_info := none,
                            error := some ("Database path \"" ++ p ++ "\" does not exist") })
              0 (Nat.succ m) } := by
      calc FaceMatcher.search_faces (Except.ok (Nat.succ m)) find false (some p) t
          = (match FaceMatcher.searchLoop find false p t 0 (Nat.succ m) with
             | Except.error e =>
               { success := false, error := some e, faces_detected := 0, matches_ := [] }
             | Except.ok results =>
               { success := true, error := none, faces_detected := results.length,
                 matches_ := results }) := rfl
        _ = _ := by rw [hloop]
    rw [hres]
    refine ⟨rfl, FaceMatcher.loopExpected_length _ _ _, FaceMatcher.loopExpected_length _ _ _, ?_⟩
    intro rec hmem
    obtain ⟨idx, hrec⟩ := FaceMatcher.loopExpected_mem _ _ _ _ hmem
    rw [hrec]
    exact ⟨rfl, rfl, rfl⟩

/-- C7 (witness): a concrete run — one detected face, database path "db"
absent — applied to the theorem: the call succeeds and the per-face record
carries the explicit error string with match_found = false. -/
theorem C7_witness :
    (FaceMatcher.search_faces (Except.ok 1) (fun _ => Except.ok []) false (some "db")
        (PyFloat.finite (1 / 2))).success = true ∧
    (FaceMatcher.search_faces (Except.ok 1) (fun _ => Except.ok []) false (some "db")
        (PyFloat.finite (1 / 2))).faces_detected = 1 ∧
    (({ face_number := 1, match_found := false, match_info := none,
        error := some ("Database path \"" ++ "db" ++ "\" does not exist") } :
        FaceMatcher.FaceMatchRecord).match_found = false ∧
     ({ face_number := 1, match_found := false, match_info := none,
        error := some ("Database path \"" ++ "db" ++ "\" does not exist") } :
        FaceMatcher.FaceMatchRecord).match_info = none ∧
     ({ face_number := 1, match_found := false, match_info := none,
        error := some ("Database path \"" ++ "db" ++ "\" does not exist") } :
        FaceMatcher.FaceMatchRecord).error
       = some ("Database path \"" ++ "db" ++ "\" does not exist")) := by
  have h := C7_missing_database_reports_per_face_error 1 (fun _ => Except.ok []) "db"
      (PyFloat.finite (1 / 2))
  exact ⟨h.1, h.2.1, h.2.2.2 _ (by decide)⟩

/-- C2: in search_faces, for every threshold t and every detected face whose
nearest gallery candidate (the first row of the first dataframe returned by
the find call) has distance d, the returned record has match_found = true if
and only if d ≤ t — the boundary case d = t is a match — and one record is
returned per detected face (with 1-based face_number) regardless of match
outcome. -/
theorem C2_match_iff_distance_le_threshold :
    ∀ (n : Nat) (cand : Nat → FaceMatcher.FindCandidate)
      (rows : Nat → List FaceMatcher.FindCandidate)
      (dfs : Nat → List (List FaceMatcher.FindCandidate)) (t : Rat) (p : String),
      (FaceMatcher.search_faces (Except.ok n)
        (fun i => Except.ok ((cand i :: rows i) :: dfs i)) true (some p)
        (PyFloat.finite t)).success = true ∧
      (FaceMatcher.search_faces (Except.ok n)
        (fun i => Except.ok ((cand i :: rows i) :: dfs i)) true (some p)
        (PyFloat.finite t)).matches_.length = n ∧
      ∀ (i : Nat) (h : i < (FaceMatcher.search_faces (Except.ok n)
          (fun i => Except.ok ((cand i :: rows i) :: dfs i)) true (some p)
          (PyFloat.finite t)).matches_.length),
        (((FaceMatcher.search_faces (Except.ok n)
            (fun i => Except.ok ((cand i :: rows i) :: dfs i)) true (some p)
            (PyFloat.finite t)).matches_.get ⟨i, h⟩).match_found = true
          ↔ (cand i).distance ≤ t) ∧
        ((FaceMatcher.search_faces (Except.ok n)
            (fun i => Except.ok ((cand i :: rows i) :: dfs i)) true (some p)
            (PyFloat.finite t)).matches_.get ⟨i, h⟩).face_number = i + 1 := by
  intro n cand rows dfs t p
  cases n with
  | zero =>
    refine ⟨rfl, rfl, ?_⟩
    intro i h
    exact absurd h (by simp [FaceMatcher.search_faces])
  | succ m =>
    have hrec : ∀ i, FaceMatcher.processFace true p (PyFloat.finite t) i
        (Except.ok ((cand i :: rows i) :: dfs i))
        = Except.ok (if (cand i).distance ≤ t then
            { face_number := i + 1, match_found := true,
              match_info := some { identity := (cand i).identity,
                                   distance := (cand i).distance,
                                   person_name := FaceMatcher.person_name_of (cand i).identity },
              error := none }
          else
            { face_number := i + 1, match_found := false, match_info := none,
              error := none }) := by
      intro i
      by_cases hd : (cand i).distance ≤ t
      · simp [FaceMatcher.processFace, ratLePyFloat, hd]
      · simp [FaceMatcher.processFace, ratLePyFloat, hd]
    have hloop := FaceMatcher.searchLoop_allOk
        (fun i => Except.ok ((cand i :: rows i) :: dfs i)) true p (PyFloat.finite t)
        (fun i => if (cand i).distance ≤ t then
            { face_number := i + 1, match_found := true,
              match_info := some { identity := (cand i).identity,
                                   distance := (cand i).distance,
                                   person_name := FaceMatcher.person_name_of (cand i).identity },
              error := none }
          else
            { face_number := i + 1, match_found := false, match_info := none, error := none })
        hrec (Nat.succ m) 0
    have hres : FaceMatcher.search_faces (Except.ok (Nat.succ m))
        (fun i => Except.ok ((cand i :: rows i) :: dfs i)) true (some p) (PyFloat.finite t)
        = { success := true, error := none,
            faces_detected := (FaceMatcher.loopExpected
              (fun i => if (cand i).distance ≤ t then
                  { face_number := i + 1, match_found := true,
                    match_info := some { identity := (cand i).identity,
                                         distance := (cand i).distance,
                                         person_name := FaceMatcher.person_name_of
                                           (cand i).identity },
                    error := none }
                else
                  { face_number := i + 1, match_found := false, match_info := none,
                    error := none }) 0 (Nat.succ m)).length,
            matches_ := FaceMatcher.loopExpected
              (fun i => if (cand i).distance ≤ t then
                  { face_number := i + 1, match_found := true,
                    match_info := some { identity := (cand i).identity,
                                         distance := (cand i).distance,
                                         person_name := FaceMatcher.person_name_of
                                           (cand i).identity },
                    error := none }
                else
                  { face_number := i + 1, match_found := false, match_info := none,
                    error := none }) 0 (Nat.succ m) } := by
      calc FaceMatcher.search_faces (Except.ok (Nat.succ m))
            (fun i => Except.ok ((cand i :: rows i) :: dfs i)) true (some p) (PyFloat.finite t)
          = (match FaceMatcher.searchLoop
                (fun i => Except.ok ((cand i :: rows i) :: dfs i)) true p
                (PyFloat.finite t) 0 (Nat.succ m) with
             | Except.error e =>
               { success := false, error := some e, faces_detected := 0, matches_ := [] }
             | Except.ok results =>
               { success := true, error := none, faces_detected := results.length,
                 matches_ := results }) := rfl
        _ = _ := by rw [hloop]
    rw [hres]
    refine ⟨rfl, FaceMatcher.loopExpected_length _ _ _, ?_⟩
    intro i h
    rw [FaceMatcher.loopExpected_get]
    by_cases hd : (cand (0 + i)).distance ≤ t
    · rw [Nat.zero_add] at hd ⊢
      simp [hd]
    · rw [Nat.zero_add] at hd ⊢
      simp [hd]

/-- C2 (witness): with one detected face whose nearest candidate is
database/alice.jpg at distance 2 and threshold exactly 2 (the boundary case
d = t), the theorem yields match_found = true. -/
theorem C2_witness :
    ((FaceMatcher.search_faces (Except.ok 1)
        (fun _ => Except.ok [[{ identity := "database/alice.jpg", distance := 2 }]])
        true (some "database/") (PyFloat.finite 2)).matches_.get
          ⟨0, by decide⟩).match_found = true := by
  have h := (C2_match_iff_distance_le_threshold 1
      (fun _ => { identity := "database/alice.jpg", distance := 2 })
      (fun _ => []) (fun _ => []) 2 "database/").2.2 0 (by decide)
  exact h.1.mpr (by norm_num)

/-- C8: any exception raised by the underlying extraction or matching library
during search_faces is caught at the outermost level and converted into
{success: false, error: message, faces_detected: 0, matches: []}: first
conjunct — the extraction call raises; second conjunct — the find call raises
at face i after i successfully processed faces, and the partial per-face
results are discarded. The function's total return type shows no such
exception propagates to the caller. -/
theorem C8_library_exception_becomes_error_result :
    (∀ (e : String) (find : Nat → Except String (List (List FaceMatcher.FindCandidate)))
       (dbExists : Bool) (database_path : Option String) (t : PyFloat),
       FaceMatcher.search_faces (Except.error e) find dbExists database_path t
         = { success := false, error := some e, faces_detected := 0, matches_ := [] }) ∧
    (∀ (i k : Nat) (pre : Nat → List (List FaceMatcher.FindCandidate)) (e : String)
       (p : Option String) (t : PyFloat),
       FaceMatcher.search_faces (Except.ok (i + 1 + k))
           (fun j => if j < i then Except.ok (pre j) else Except.error e) true p t
         = { success := false, error := some e, faces_detected := 0, matches_ := [] }) := by
  constructor
  · intro e find db dp t
    rfl
  · intro i k pre e p t
    have hok : ∀ j, j < i → ∃ rec,
        FaceMatcher.processFace true (p.getD FaceMatcher.default_database_path) t (0 + j)
          ((fun j => if j < i then Except.ok (pre j) else Except.error e) (0 + j))
          = Except.ok rec := by
      intro j hj
      have hj2 : 0 + j < i := by omega
      simp only [if_pos hj2]
      exact FaceMatcher.processFace_okOfOk _ _ _ _
    have herr : FaceMatcher.processFace true (p.getD FaceMatcher.default_database_path) t (0 + i)
        ((fun j => if j < i then Except.ok (pre j) else Except.error e) (0 + i))
        = Except.error e := by
      have hi : ¬ 0 + i < i := by omega
      simp only [if_neg hi]
      rfl
    have hloop := FaceMatcher.searchLoop_err
        (fun j => if j < i then Except.ok (pre j) else Except.error e)
        (p.getD FaceMatcher.default_database_path) t e i k 0 hok herr
    rw [show i + 1 + k = Nat.succ (i + k) by omega]
    calc FaceMatcher.search_faces (Except.ok (Nat.succ (i + k)))
          (fun j => if j < i then Except.ok (pre j) else Except.error e) true p t
        = (match FaceMatcher.searchLoop
              (fun j => if j < i then Except.ok (pre j) else Except.error e) true
              (p.getD FaceMatcher.default_database_path) t 0 (Nat.succ (i + k)) with
           | Except.error e2 =>
             { success := false, error := some e2, faces_detected := 0, matches_ := [] }
           | Except.ok results =>
             { success := true, error := none, faces_detected := results.length,
               matches_ := results }) := rfl
      _ = _ := by rw [hloop]

/-- C9: for every transport failure during a forensics request — a raised
timeout/connection-error exception, or a non-2xx HTTP status turned into an
HTTPError by raise_for_status — _make_request returns the error-tagged dict
{'status': 'error', 'error': failure description, 'model': model name}
instead of raising to its caller (the hypothesis restricts to requests that
were actually issued: a URL source, or a file source whose open succeeded —
a file-open failure is not in this failure class and does propagate). -/
theorem C9_transport_failure_returns_error_dict :
    ∀ (α : Type) (is_url : Bool) (openFile : Except String Unit) (model : String),
      (is_url = true ∨ openFile = Except.ok ()) →
      (∀ (e : ImageDetector.RequestException),
         ImageDetector.make_request α is_url openFile (Except.error e) model
           = Except.ok (ImageDetector.MakeRequestResult.errDict "error"
               (ImageDetector.excStr e) model)) ∧
      (∀ (r : ImageDetector.HttpResponse α), 400 ≤ r.status_code → r.status_code < 600 →
         ImageDetector.make_request α is_url openFile (Except.ok r) model
           = Except.ok (ImageDetector.MakeRequestResult.errDict "error"
               ("HTTP error " ++ toString r.status_code) model)) := by
  intro α is_url openFile model h
  have hcore_err : ∀ (e : ImageDetector.RequestException),
      ImageDetector.requestCore α (Except.error e) model
        = ImageDetector.MakeRequestResult.errDict "error" (ImageDetector.excStr e) model := by
    intro e
    rfl
  have hcore_status : ∀ (r : ImageDetector.HttpResponse α),
      400 ≤ r.status_code → r.status_code < 600 →
      ImageDetector.requestCore α (Except.ok r) model
        = ImageDetector.MakeRequestResult.errDict "error"
            ("HTTP error " ++ toString r.status_code) model := by
    intro r h4 h6
    have hraise : ImageDetector.raise_for_status α r
        = Except.error (ImageDetector.RequestException.httpError
            ("HTTP error " ++ toString r.status_code)) := by
      simp [ImageDetector.raise_for_status, h4, h6]
    simp [ImageDetector.requestCore, Except.bind, hraise, Except.map, ImageDetector.excStr]
  have hreq : ∀ (transport : Except ImageDetector.RequestException
      (ImageDetector.HttpResponse α)),
      ImageDetector.make_request α is_url openFile transport model
        = Except.ok (ImageDetector.requestCore α transport model) := by
    intro transport
    rcases h with hu | ho
    · simp [ImageDetector.make_request, hu]
    · cases is_url with
      | true => simp [ImageDetector.make_request]
      | false => simp [ImageDetector.make_request, ho]
  exact ⟨fun e => by rw [hreq, hcore_err],
         fun r h4 h6 => by rw [hreq, hcore_status r h4 h6]⟩

/-- C9 (witness): the theorem applied to a URL request with a concrete
timeout exception, and to a concrete 500 response. -/
theorem C9_witness :
    ImageDetector.make_request Unit true (Except.ok ())
        (Except.error (ImageDetector.RequestException.timeout "request timed out")) "deepfake"
      = Except.ok (ImageDetector.MakeRequestResult.errDict "error"
          (ImageDetector.excStr (ImageDetector.RequestException.timeout "request timed out"))
          "deepfake") ∧
    ImageDetector.make_request Unit true (Except.ok ())
        (Except.ok { status_code := 500, body := () }) "genai"
      = Except.ok (ImageDetector.MakeRequestResult.errDict "error"
          ("HTTP error " ++ toString (500 : Nat)) "genai") := by
  refine ⟨(C9_transport_failure_returns_error_dict Unit true (Except.ok ()) "deepfake"
      (Or.inl rfl)).1 _, ?_⟩
  exact (C9_transport_failure_returns_error_dict Unit true (Except.ok ()) "genai"
      (Or.inl rfl)).2 { status_code := 500, body := () } (by decide) (by decide)

/-- C1 (counterexample to the claim as stated): a POST carrying a text/plain
upload with a non-empty filename is NOT answered with 400 — /face/detect
(face matching available) processes it normally, answering 200 and invoking
the face library; and /detect (whose availability flag is always False
because image_detector.py defines no detect_tampering) answers 503, not 400.
No content-type check exists in either handler. -/
theorem C1_counterexample :
    (App.detect_faces true
        { image := some { filename := "doc.txt", content_type := "text/plain" }, form := [] }
        true "e" (Except.ok 1)).status = 200 ∧
    App.Ev.extCall ∈ (App.detect_faces true
        { image := some { filename := "doc.txt", content_type := "text/plain" }, form := [] }
        true "e" (Except.ok 1)).trace ∧
    (App.detect_tampering_endpoint Unit App.TAMPERING_DETECTION_AVAILABLE
        { image := some { filename := "doc.txt", content_type := "text/plain" }, form := [] }
        true "e" (Except.ok ())).status = 503 := by
  refine ⟨rfl, ?_, rfl⟩
  decide

/-- C1 (amended): neither /detect nor /face/detect inspects the uploaded
content type — the handler outcome is identical for any two content types;
/detect always answers 503 (its availability flag is False because the
detect_tampering import fails), and /face/detect answers 400 exactly when the
subsystem is available and the image field is missing or the filename is
empty — never because of a non-image content type. -/
theorem C1_content_type_never_checked :
    (∀ (α : Type) (avail : Bool) (fname ct ct2 saveErr : String)
       (form_ : List (String × String)) (save_ok : Bool) (res : Except String α),
       App.detect_tampering_endpoint α avail
           { image := some { filename := fname, content_type := ct }, form := form_ }
           save_ok saveErr res
         = App.detect_tampering_endpoint α avail
           { image := some { filename := fname, content_type := ct2 }, form := form_ }
           save_ok saveErr res) ∧
    (∀ (avail : Bool) (fname ct ct2 saveErr : String) (form_ : List (String × String))
       (save_ok : Bool) (extract : Except String Nat),
       App.detect_faces avail
           { image := some { filename := fname, content_type := ct }, form := form_ }
           save_ok saveErr extract
         = App.detect_faces avail
           { image := some { filename := fname, content_type := ct2 }, form := form_ }
           save_ok saveErr extract) ∧
    (∀ (α : Type) (req : App.HttpRequest) (save_ok : Bool) (saveErr : String)
       (res : Except String α),
       (App.detect_tampering_endpoint α App.TAMPERING_DETECTION_AVAILABLE req
           save_ok saveErr res).status = 503) ∧
    (∀ (avail : Bool) (req : App.HttpRequest) (save_ok : Bool) (saveErr : String)
       (extract : Except String Nat),
       (App.detect_faces avail req save_ok saveErr extract).status = 400
         ↔ (avail = true ∧ (req.image = none
              ∨ ∃ f, req.image = some f ∧ f.filename = ""))) := by
  refine ⟨fun α avail fname ct ct2 saveErr form_ save_ok res => rfl,
          fun avail fname ct ct2 saveErr form_ save_ok extract => rfl,
          fun α req save_ok saveErr res => rfl, ?_⟩
  intro avail req save_ok saveErr extract
  rcases req with ⟨img, form_⟩
  cases avail with
  | false => simp [App.detect_faces]
  | true =>
    cases img with
    | none => simp [App.detect_faces]
    | some f =>
      by_cases hf : f.filename = ""
      · simp [App.detect_faces, hf]
      · cases save_ok with
        | false => simp [App.detect_faces, hf]
        | true => simp [App.detect_faces, hf]

/-- C4 (counterexample to the claim as stated): when file.save raises while
writing the upload into the just-created temporary file — an exit path on
which the handler still produces a (500) response via its outer except
clause — the temporary file is created but never deleted, because the
creation and save happen before the try/finally that performs the unlink
(src/app.py lines 131-135). -/
theorem C4_counterexample :
    App.Ev.tmpCreate ∈ (App.search_faces true
        { image := some { filename := "a.jpg", content_type := "image/jpeg" }, form := [] }
        false "save failed" (Except.ok 1) (fun _ => Except.ok []) true).trace ∧
    App.Ev.tmpDelete ∉ (App.search_faces true
        { image := some { filename := "a.jpg", content_type := "image/jpeg" }, form := [] }
        false "save failed" (Except.ok 1) (fun _ => Except.ok []) true).trace ∧
    (App.search_faces true
        { image := some { filename := "a.jpg", content_type := "image/jpeg" }, form := [] }
        false "save failed" (Except.ok 1) (fun _ => Except.ok []) true).status = 500 := by
  refine ⟨?_, ?_, rfl⟩ <;> decide

/-- C4 (amended): provided writing the upload into the temporary file
succeeds, every handler deletes its temporary file before the response is
produced on every exit path — success, handled error, and when the
underlying detection/search call raises (the trace contains a creation if
and only if it contains the matching deletion); if the save itself raises,
the already-created file is not deleted (see the counterexample). -/
theorem C4_temp_file_deleted_when_save_succeeds :
    (∀ (α : Type) (avail : Bool) (req : App.HttpRequest) (saveErr : String)
       (res : Except String α),
       (App.Ev.tmpCreate ∈ (App.detect_tampering_endpoint α avail req true saveErr res).trace
         ↔ App.Ev.tmpDelete ∈ (App.detect_tampering_endpoint α avail req true saveErr res).trace)) ∧
    (∀ (avail : Bool) (req : App.HttpRequest) (saveErr : String) (extract : Except String Nat),
       (App.Ev.tmpCreate ∈ (App.detect_faces avail req true saveErr extract).trace
         ↔ App.Ev.tmpDelete ∈ (App.detect_faces avail req true saveErr extract).trace)) ∧
    (∀ (avail : Bool) (req : App.HttpRequest) (saveErr : String) (extract : Except String Nat)
       (find : Nat → Except String (List (List FaceMatcher.FindCandidate))) (db : Bool),
       (App.Ev.tmpCreate ∈ (App.search_faces avail req true saveErr extract find db).trace
         ↔ App.Ev.tmpDelete ∈ (App.search_faces avail req true saveErr extract find db).trace)) ∧
    (∀ (avail : Bool) (req : App.HttpRequest) (saveErr : String) (extract : Except String Nat)
       (find : Nat → Except String (List (List FaceMatcher.FindCandidate))) (db : Bool),
       (App.Ev.tmpCreate ∈ (App.detect_and_search_faces avail req true saveErr extract find db).trace
         ↔ App.Ev.tmpDelete ∈ (App.detect_and_search_faces avail req true saveErr extract find db).trace)) := by
  refine ⟨?_, ?_, ?_, ?_⟩
  · intro α avail req saveErr res
    rcases req with ⟨img, form_⟩
    cases avail with
    | false => simp [App.detect_tampering_endpoint]
    | true =>
      cases img with
      | none => simp [App.detect_tampering_endpoint]
      | some f =>
        by_cases hf : f.filename = ""
        · simp [App.detect_tampering_endpoint, hf]
        · cases res with
          | ok v => simp [App.detect_tampering_endpoint, hf]
          | error e => simp [App.detect_tampering_endpoint, hf]
  · intro avail req saveErr extract
    rcases req with ⟨img, form_⟩
    cases avail with
    | false => simp [App.detect_faces]
    | true =>
      cases img with
      | none => simp [App.detect_faces]
      | some f =>
        by_cases hf : f.filename = ""
        · simp [App.detect_faces, hf]
        · simp [App.detect_faces, hf]
  · intro avail req saveErr extract find db
    rcases req with ⟨img, form_⟩
    cases avail with
    | false => simp [App.search_faces]
    | true =>
      cases img with
      | none => simp [App.search_faces]
      | some f =>
        by_cases hf : f.filename = ""
        · simp [App.search_faces, hf]
        · cases hp : pyFloatParse (App.formGet ⟨some f, form_⟩ "threshold" "0.5") with
          | none => simp [App.search_faces, hf, hp]
          | some th => simp [App.search_faces, hf, hp]
  · intro avail req saveErr extract find db
    rcases req with ⟨img, form_⟩
    cases avail with
    | false => simp [App.detect_and_search_faces]
    | true =>
      cases img with
      | none => simp [App.detect_and_search_faces]
      | some f =>
        by_cases hf : f.filename = ""
        · simp [App.detect_and_search_faces, hf]
        · cases hp : pyFloatParse (App.formGet ⟨some f, form_⟩ "threshold" "0.5") with
          | none => simp [App.detect_and_search_faces, hf, hp]
          | some th => simp [App.detect_and_search_faces, hf, hp]

/-- C6: when face extraction returns zero faces, FaceMatcher.detect_faces
returns a non-error result with success = true, faces_detected = 0 and
faces = [] — and hence /face/detect (face matching available, valid upload,
save succeeded) answers 200 with exactly that body: zero detections never
fail the call. -/
theorem C6_zero_faces_is_valid_success :
    FaceMatcher.detect_faces (Except.ok 0)
      = { success := true, error := none, faces_detected := 0, faces := [] } ∧
    ∀ (fname ct saveErr : String) (form_ : List (String × String)),
      fname ≠ "" →
      App.detect_faces true
          { image := some { filename := fname, content_type := ct }, form := form_ }
          true saveErr (Except.ok 0)
        = { status := 200,
            body := App.Body.result
              { success := true, error := none, faces_detected := 0, faces := [] },
            trace := [App.Ev.tmpCreate, App.Ev.extCall, App.Ev.tmpDelete] } := by
  refine ⟨rfl, ?_⟩
  intro fname ct saveErr form_ hne
  simp [App.detect_faces, hne]
  rfl

/-- C6 (witness): the theorem applied to a concrete valid upload whose
extraction yields zero faces. -/
theorem C6_witness :
    FaceMatcher.detect_faces (Except.ok 0)
      = { success := true, error := none, faces_detected := 0, faces := [] } ∧
    App.detect_faces true
        { image := some { filename := "group.jpg", content_type := "image/jpeg" }, form := [] }
        true "e" (Except.ok 0)
      = { status := 200,
          body := App.Body.result
            { success := true, error := none, faces_detected := 0, faces := [] },
          trace := [App.Ev.tmpCreate, App.Ev.extCall, App.Ev.tmpDelete] } := by
  refine ⟨C6_zero_faces_is_valid_success.1, ?_⟩
  exact C6_zero_faces_is_valid_success.2 "group.jpg" "image/jpeg" "e" [] (by decide)

/-- C10: when the 'threshold' form field of /face/search or
/face/detect-and-search is present but not parseable by float(), the handler
answers HTTP 500 with an {error} body — the ValueError is caught only by the
generic outer except clause, not mapped to the 400 used for client input
errors — and the face-search library is never invoked (the side-effect trace
is empty: no temp file, no library call). -/
theorem C10_unparseable_threshold_yields_500 :
    ∀ (fname ct saveErr s : String) (form_ : List (String × String)) (save_ok : Bool)
      (extract : Except String Nat)
      (find : Nat → Except String (List (List FaceMatcher.FindCandidate))) (db : Bool),
      fname ≠ "" →
      form_.lookup "threshold" = some s →
      pyFloatParse s = none →
      App.search_faces true
          { image := some { filename := fname, content_type := ct }, form := form_ }
          save_ok saveErr extract find db
        = { status := 500,
            body := App.Body.errJson ("could not convert string to float: " ++ s),
            trace := [] } ∧
      App.detect_and_search_faces true
          { image := some { filename := fname, content_type := ct }, form := form_ }
          save_ok saveErr extract find db
        = { status := 500,
            body := App.Body.errJson ("could not convert string to float: " ++ s),
            trace := [] } := by
  intro fname ct saveErr s form_ save_ok extract find db hne hlook hparse
  have hget : App.formGet
      { image := some { filename := fname, content_type := ct }, form := form_ }
      "threshold" "0.5" = s := by
    simp [App.formGet, hlook]
  constructor
  · simp [App.search_faces, hne, hget, hparse]
  · simp [App.detect_and_search_faces, hne, hget, hparse]

/-- C10 (witness): the theorem applied to a concrete request whose threshold
field is "abc" (not a float): both handlers answer 500 with an empty
side-effect trace. -/
theorem C10_witness :
    App.search_faces true
        { image := some { filename := "img.jpg", content_type := "image/jpeg" },
          form := [("threshold", "abc")] }
        true "e" (Except.ok 0) (fun _ => Except.ok []) true
      = { status := 500,
          body := App.Body.errJson ("could not convert string to float: " ++ "abc"),
          trace := [] } ∧
    App.detect_and_search_faces true
        { image := some { filename := "img.jpg", content_type := "image/jpeg" },
          form := [("threshold", "abc")] }
        true "e" (Except.ok 0) (fun _ => Except.ok []) true
      = { status := 500,
          body := App.Body.errJson ("could not convert string to float: " ++ "abc"),
          trace := [] } :=
  C10_unparseable_threshold_yields_500 "img.jpg" "image/jpeg" "e" "abc"
    [("threshold", "abc")] true (Except.ok 0) (fun _ => Except.ok []) true
    (by decide) (by decide) (by decide)
